import Mathlib

/-!
Shallow embedding of `src/findmypi.py`, a local-network scanner that pings the
254 hosts of a /24 range, reads the ARP cache for each reachable host, and
flags hosts whose MAC OUI is in a fixed Raspberry Pi vendor table.

Strings are modelled as `List Char` (Python `str` / `bytes` over ASCII).
External effects (socket lookups, `ping`, `arp` subprocesses) are modelled by
an explicit environment record; each subprocess call either returns an output
string or fails with an exception (`err`), which is what the `try/except`
blocks in the source observe.
-/

namespace FindMyPi

/-- ASCII uppercase of one character, the behaviour of Python `str.upper` on
the ASCII range (MAC and IP strings are ASCII). -/
def upperChar (c : Char) : Char :=
  if 'a' ≤ c ∧ c ≤ 'z' then Char.ofNat (c.toNat - 32) else c

/-- Python `s.upper()` on an ASCII string. -/
def upperStr (s : List Char) : List Char :=
  s.map upperChar

/-- Python `s.replace('-', ':')`: a one-character needle, so a character map. -/
def replaceDash (s : List Char) : List Char :=
  s.map fun c => if c = '-' then ':' else c

/-- Python `s.split(sep)` for a one-character separator: keeps empty pieces,
`"".split(sep) = [""]`. -/
def splitOnChar (sep : Char) : List Char → List (List Char)
  | [] => [[]]
  | c :: cs =>
    if c = sep then [] :: splitOnChar sep cs
    else
      match splitOnChar sep cs with
      | [] => [[c]]
      | t :: ts => (c :: t) :: ts

/-- Python `s.splitlines()` restricted to `'\n'` terminators: no trailing empty
line when the string ends with a newline, and `"".splitlines() = []`. -/
def splitLines (s : List Char) : List (List Char) :=
  match s with
  | [] => []
  | _ =>
    let ps := splitOnChar '\n' s
    if s.getLast? = some '\n' then ps.dropLast else ps

/-- Helper for `splitWs`: accumulates the current token (reversed). -/
def splitWsAux : List Char → List Char → List (List Char)
  | [], acc => if acc = [] then [] else [acc.reverse]
  | c :: cs, acc =>
    if c = ' ' ∨ c = '\t' then
      if acc = [] then splitWsAux cs []
      else acc.reverse :: splitWsAux cs []
    else splitWsAux cs (c :: acc)

/-- Python `line.split()` (no argument): split on runs of whitespace, dropping
empty tokens.  The lines fed to it here were already split at newlines, so
space and tab are the relevant whitespace characters. -/
def splitWs (s : List Char) : List (List Char) :=
  splitWsAux s []

/-- Python `needle in hay` on strings: substring containment. -/
def containsSeq (needle : List Char) : List Char → Bool
  | [] => needle.isEmpty
  | c :: rest => needle.isPrefixOf (c :: rest) || containsSeq needle rest

/-- Helper for `decimalDigits`: little-endian decimal digits of `n`, with a
structural fuel argument (`fuel ≥ n` suffices). -/
def decimalDigitsAux : Nat → Nat → List Char
  | _, 0 => []
  | 0, _ + 1 => []
  | fuel + 1, n + 1 =>
    Nat.digitChar ((n + 1) % 10) :: decimalDigitsAux fuel ((n + 1) / 10)

/-- Decimal rendering of a positive integer, the behaviour of Python
`f-string` formatting of an `int` (the scanner only formats 1..254). -/
def decimalDigits (n : Nat) : List Char :=
  (decimalDigitsAux n n).reverse

/-- Python `'.'.join(s.split('.')[:-1])` (lines 114 and 118 of the source):
drop the last dot-separated group. -/
def dropLastGroup (s : List Char) : List Char :=
  List.intercalate ['.'] ((splitOnChar '.' s).dropLast)

/-- Source lines 13-20: the hard-coded vendor OUI table. -/
def RASPBERRY_PI_MAC_PREFIXES : List (List Char) :=
  ["28:CD:C1".data, "2C:CF:67".data, "B8:27:EB".data,
   "D8:3A:DD".data, "DC:A6:32".data, "E4:5F:01".data]

/-- Source lines 70-74, `is_raspberry_pi(mac)`: `None` or empty is `False`
(`if not mac`); otherwise uppercase the string, take its first 8 characters,
and ask whether they start with one of the vendor OUIs. -/
def is_raspberry_pi : Option (List Char) → Bool
  | none => false
  | some mac =>
    if mac = [] then false
    else RASPBERRY_PI_MAC_PREFIXES.any fun p => p.isPrefixOf ((upperStr mac).take 8)

/-- Classifier as the specification describes it (section 4.3 / claim C5),
kept for comparison with `is_raspberry_pi`: normalize the MAC to uppercase
hexadecimal WITH COLON SEPARATORS (so hyphen-separated input is normalized),
take the first three octets, and return true iff that prefix exactly matches
one of the vendor OUIs; missing MAC is false. -/
def specIsRaspberryPi : Option (List Char) → Bool
  | none => false
  | some mac =>
    RASPBERRY_PI_MAC_PREFIXES.any fun p =>
      decide ((upperStr (replaceDash mac)).take 8 = p)

/-- Outcome of the `subprocess.check_output(['ping', ...])` call: either the
command succeeded with some output bytes, or it raised
(`CalledProcessError`, `TimeoutExpired`, or anything else — the source
catches all of them alike). -/
inductive PingRes
  | ok (output : List Char)
  | err
deriving DecidableEq

/-- Outcome of the `subprocess.check_output(['arp', 'a', ip])` call, same
convention as `PingRes`. -/
inductive ArpRes
  | ok (output : List Char)
  | err
deriving DecidableEq

/-- The external world of one (deterministic) run: `currentIp` is what
`get_current_ip()` returns (`none` when `socket.gethostbyname` raised and the
function returned `None`); `ping` and `arp` give the outcome of the
subprocess call for each address.  The `get_hostname` result is only ever
printed and cannot change the device list, so it is not modelled. -/
structure Env where
  currentIp : Option (List Char)
  ping : List Char → PingRes
  arp : List Char → ArpRes

/-- Source lines 76-84, `ping_test(ip)`: returns `ip` when the echo command
succeeded and its output does not contain `"unreachable"`; every failure
(non-zero exit, timeout, any other exception) and every `"unreachable"`
output falls through to `None`. -/
def ping_test (ping : List Char → PingRes) (ip : List Char) : Option (List Char) :=
  match ping ip with
  | PingRes.ok output =>
    if containsSeq "unreachable".data output then none else some ip
  | PingRes.err => none

/-- Source lines 57-64, the parsing loop of `get_mac_address`: for every line
containing `'dynamic'`, take the first two whitespace tokens as
`(ip, mac.replace('-', ':'))`.  A dynamic line with fewer than two tokens
raises `IndexError` (`parts[1]`), which aborts the whole loop — modelled by
`none`. -/
def parseArpLines : List (List Char) → Option (List (List Char × List Char))
  | [] => some []
  | line :: rest =>
    if containsSeq "dynamic".data line then
      match splitWs line with
      | p0 :: p1 :: _ =>
        match parseArpLines rest with
        | some ds => some ((p0, replaceDash p1) :: ds)
        | none => none
      | _ => none
    else parseArpLines rest

/-- Source lines 54-68, `get_mac_address(ip)`: run `arp -a ip`, parse the
dynamic lines; any exception (command failure, decode error, `IndexError`
inside the loop) is caught and yields `[]`. -/
def get_mac_address (arp : List Char → ArpRes) (ip : List Char) : List (List Char × List Char) :=
  match arp ip with
  | ArpRes.ok output =>
    match parseArpLines (splitLines output) with
    | some ds => ds
    | none => []
  | ArpRes.err => []

/-- Source line 87: `[f'{base_ip}.{i}' for i in range(start_ip, end_ip + 1)]`. -/
def scanAddresses (start_ip end_ip : Nat) (base_ip : List Char) : List (List Char) :=
  (List.range' start_ip (end_ip + 1 - start_ip)).map fun i =>
    base_ip ++ '.' :: decimalDigits i

/-- Source lines 86-97, `scan_local_network`: submit `ping_test` for every
candidate address to the thread pool and collect the truthy results.  The
pool size `workers` bounds concurrency only — every submitted task runs and
the collected set of reachable addresses does not depend on it; completion
order is nondeterministic and is modelled as submission order (all claims
proved below are insensitive to the order of this list). -/
def scan_local_network (start_ip end_ip : Nat) (base_ip : List Char) (workers : Nat)
    (ping : List Char → PingRes) : List (List Char) :=
  (scanAddresses start_ip end_ip base_ip).filterMap (ping_test ping)

/-- Source lines 129-134, the resolution loop of `main`: for each reachable
ip, look up the ARP pairs and keep `mac_address[0]` (the first pair) when the
list is non-empty; an ip whose lookup came back empty contributes nothing. -/
def collectDevices (arp : List Char → ArpRes) (reachable : List (List Char)) :
    List (List Char × List Char) :=
  reachable.filterMap fun ip => (get_mac_address arp ip).head?

/-- Observable trace of one run of `main`: `crashed` records termination by
an uncaught exception before the scan (nothing probed, nothing resolved);
`ip_addresses` is the candidate list submitted to the probes,
`reachable_ips` the post-filter reachable list that the resolution loop
iterates over, `devices` the collected `(ip, mac)` pairs, and `rpi_devices`
the final reported list. -/
structure ScanRun where
  crashed : Bool
  ip_addresses : List (List Char)
  reachable_ips : List (List Char)
  devices : List (List Char × List Char)
  rpi_devices : List (List Char)
deriving DecidableEq

/-- Source lines 126-127 of `main`: the reachable list of a scan with base
`current_ip` minus its last dot-group, with `current_ip` itself filtered out
afterwards.  This is the list the resolution loop iterates over. -/
def mainReachable (env : Env) (current_ip : List Char) (workers : Nat) : List (List Char) :=
  (scan_local_network 1 254 (dropLastGroup current_ip) workers env.ping).filter fun ip =>
    decide (ip ≠ current_ip)

/-- Source lines 99-143, `main(base_ip, workers)`.
Line 108: `current_ip` is the argument itself when one is given, else
`get_current_ip()`.  When that is `None`, line 109 `get_hostname(None)`
raises `TypeError` (`socket.gethostbyaddr(None)`), which nothing catches:
the run ends before any probe — the dead `raise typer.Exit()` on line 116 is
never reached because line 114 would already have raised `AttributeError`
first.  Lines 112-118: whether or not an argument was given, the scan base is
`current_ip` minus its last dot-group (for an empty argument the second
`get_current_ip()` call on line 113 returns the same address in this
deterministic environment).  Lines 121-127: scan suffixes 1..254 and drop
`current_ip` from the reachable list.  Lines 129-136: resolve each remaining
address, keep the first ARP pair when there is one, and report the addresses
of the pairs whose MAC classifies as Raspberry Pi. -/
def main (env : Env) (base_ip : List Char) (workers : Nat) : ScanRun :=
  match (if base_ip = [] then env.currentIp else some base_ip) with
  | none => ⟨true, [], [], [], []⟩
  | some current_ip =>
    ⟨false,
     scanAddresses 1 254 (dropLastGroup current_ip),
     mainReachable env current_ip workers,
     collectDevices env.arp (mainReachable env current_ip workers),
     ((collectDevices env.arp (mainReachable env current_ip workers)).filter fun d =>
        is_raspberry_pi (some d.2)).map fun d => d.1⟩

/-- Ping environment in which exactly one address answers (with a normal echo
reply); every other probe raises. -/
def pingOnly (target : List Char) : List Char → PingRes := fun ip =>
  if ip = target then PingRes.ok "Reply from host: bytes=32 time=1ms TTL=64".data
  else PingRes.err

/-- ARP output (Windows `arp -a inet_addr` shape) holding one dynamic entry
for 10.0.0.5 with a Raspberry Pi OUI. -/
def arpOut5 : List Char :=
  ("Interface: 10.0.0.7 --- 0x4\n  Internet Address      Physical Address      Type\n  10.0.0.5              b8-27-eb-11-22-33     dynamic\n").data

/-- Run environment for the end-to-end scenario of the spec: the machine's
own address is 10.0.0.7; only 10.0.0.5 answers a probe, and its ARP lookup
yields the dynamic MAC b8:27:eb:11:22:33. -/
def envC1 : Env :=
  ⟨some "10.0.0.7".data,
   pingOnly "10.0.0.5".data,
   fun ip => if ip = "10.0.0.5".data then ArpRes.ok arpOut5 else ArpRes.err⟩

/-- Run environment in which 10.0.0.5 answers its probe but every ARP lookup
fails (no dynamic entry for any reachable address). -/
def envC3 : Env :=
  ⟨some "10.0.0.7".data, pingOnly "10.0.0.5".data, fun _ => ArpRes.err⟩

/-- ARP output holding one dynamic entry for 10.0.0.9. -/
def arpOut9 : List Char :=
  "  10.0.0.9              b8-27-eb-11-22-33     dynamic\n".data

/-- Run environment in which the machine's own address is 10.0.0.9: it
answers its own probe and holds a dynamic ARP entry (as after an address
conflict or gratuitous ARP). -/
def envC4 : Env :=
  ⟨some "10.0.0.9".data,
   pingOnly "10.0.0.9".data,
   fun ip => if ip = "10.0.0.9".data then ArpRes.ok arpOut9 else ArpRes.err⟩

/-- ARP output whose single dynamic line carries an address outside the
scanned range (the code trusts the first token of the line). -/
def arpOutFar : List Char :=
  "  99.99.99.99            b8-27-eb-11-22-33     dynamic\n".data

/-- Run environment in which the ARP answer for reachable 10.0.0.5 reports
the foreign address 99.99.99.99. -/
def envC9 : Env :=
  ⟨some "10.0.0.7".data,
   pingOnly "10.0.0.5".data,
   fun ip => if ip = "10.0.0.5".data then ArpRes.ok arpOutFar else ArpRes.err⟩

/-- Run environment in which the local address cannot be determined
(`get_current_ip()` returns `None`). -/
def envNoIp : Env :=
  ⟨none, fun _ => PingRes.err, fun _ => ArpRes.err⟩

/-- ARP output with two dynamic lines for one query. -/
def arpOutTwo : List Char :=
  ("  10.0.0.5              b8-27-eb-11-22-33     dynamic\n  10.0.0.6              dc-a6-32-00-00-01     dynamic\n").data

/-- ARP environment answering the query for 10.0.0.5 with two dynamic pairs. -/
def arpTwoEnv : List Char → ArpRes := fun ip =>
  if ip = "10.0.0.5".data then ArpRes.ok arpOutTwo else ArpRes.err

/-- A probe can only report the address it was asked about. -/
theorem ping_test_some_eq (ping : List Char → PingRes) (ip r : List Char)
    (h : ping_test ping ip = some r) : r = ip := by
  unfold ping_test at h
  split at h
  · split at h
    · cases h
    · exact (Option.some.inj h).symm
  · cases h

/-- Every address collected by `scan_local_network` is one of the candidate
addresses and passed its own probe. -/
theorem mem_scan_local_network (start_ip end_ip : Nat) (base_ip : List Char)
    (workers : Nat) (ping : List Char → PingRes) (ip : List Char)
    (h : ip ∈ scan_local_network start_ip end_ip base_ip workers ping) :
    ip ∈ scanAddresses start_ip end_ip base_ip ∧ ping_test ping ip = some ip := by
  unfold scan_local_network at h
  rcases List.mem_filterMap.mp h with ⟨a, ha, hpa⟩
  have heq := ping_test_some_eq ping a ip hpa
  subst heq
  exact ⟨ha, hpa⟩

/-- Shape of a `main` run once the current address is resolved. -/
theorem main_some (env : Env) (base_ip : List Char) (workers : Nat) (cur : List Char)
    (h : (if base_ip = [] then env.currentIp else some base_ip) = some cur) :
    main env base_ip workers =
      ⟨false,
       scanAddresses 1 254 (dropLastGroup cur),
       mainReachable env cur workers,
       collectDevices env.arp (mainReachable env cur workers),
       ((collectDevices env.arp (mainReachable env cur workers)).filter fun d =>
          is_raspberry_pi (some d.2)).map fun d => d.1⟩ := by
  unfold main
  rw [h]

/-- A Boolean `any` only depends on the values of its predicate on the list. -/
theorem any_eq_of_forall {α : Type} {l : List α} {f g : α → Bool}
    (h : ∀ p ∈ l, f p = g p) : l.any f = l.any g := by
  induction l with
  | nil => rfl
  | cons p ps ih =>
    rw [List.any_cons, List.any_cons, h p (by simp), ih fun q hq => h q (by simp [hq])]

/-- On a candidate no longer than the pattern, `startswith` is equality. -/
theorem isPrefixOf_eq_decide (p t : List Char) (h : t.length ≤ p.length) :
    p.isPrefixOf t = decide (t = p) := by
  by_cases he : t = p
  · subst he
    simp
  · rw [decide_eq_false he]
    by_cases hb : p.isPrefixOf t = true
    · exfalso
      have hpre := List.isPrefixOf_iff_prefix.mp hb
      have hlen := Nat.le_antisymm hpre.length_le h
      exact he (hpre.eq_of_length hlen).symm
    · exact Bool.eq_false_iff.mpr hb

set_option maxRecDepth 10000 in
set_option maxHeartbeats 4000000 in
/-- C2: for every base prefix string and all worker-pool sizes, the scan
generates exactly the 254 candidate addresses `base.n` for 1 ≤ n ≤ 254, each
exactly once (no duplicates, no omissions), and the set of addresses probed
does not depend on the pool size. -/
theorem C2_scan_range :
    ∀ (base_ip : List Char) (w₁ w₂ : Nat) (ping : List Char → PingRes),
      (scanAddresses 1 254 base_ip).length = 254
      ∧ (∀ n : Nat, 1 ≤ n → n ≤ 254 →
          base_ip ++ '.' :: decimalDigits n ∈ scanAddresses 1 254 base_ip)
      ∧ (∀ a ∈ scanAddresses 1 254 base_ip,
          ∃ n : Nat, 1 ≤ n ∧ n ≤ 254 ∧ a = base_ip ++ '.' :: decimalDigits n)
      ∧ (scanAddresses 1 254 base_ip).Nodup
      ∧ scan_local_network 1 254 base_ip w₁ ping = scan_local_network 1 254 base_ip w₂ ping := by
  intro base w₁ w₂ ping
  refine ⟨?_, ?_, ?_, ?_, rfl⟩
  · unfold scanAddresses
    rw [List.length_map, List.length_range']
  · intro n h1 h2
    unfold scanAddresses
    exact List.mem_map.mpr ⟨n, List.mem_range'_1.mpr ⟨h1, by omega⟩, rfl⟩
  · intro a ha
    unfold scanAddresses at ha
    rcases List.mem_map.mp ha with ⟨n, hn, rfl⟩
    rw [List.mem_range'_1] at hn
    exact ⟨n, hn.1, by omega, rfl⟩
  · have h1 : (List.map decimalDigits (List.range' 1 254)).Nodup := by decide
    have h2 : scanAddresses 1 254 base =
        (List.map decimalDigits (List.range' 1 254)).map fun s => base ++ '.' :: s := by
      unfold scanAddresses
      rw [List.map_map]
      rfl
    rw [h2]
    refine h1.map fun s t hst => ?_
    have h3 := List.append_cancel_left hst
    exact (List.cons_eq_cons.mp h3).2

theorem C2_scan_range_witness :
    "10.0.0".data ++ '.' :: decimalDigits 5 ∈ scanAddresses 1 254 "10.0.0".data :=
  (C2_scan_range "10.0.0".data 1 2 (fun _ => PingRes.err)).2.1 5 (by decide) (by decide)

/-- C6: the classifier is deterministic and pure (same result on repeated
calls), case-insensitive (two MACs equal up to letter case classify alike),
`classify(None) = false`, `classify("28:cd:c1:00:00:01") = true`, and
`classify("00:11:22:33:44:55") = false`. -/
theorem C6_classifier_pure :
    (∀ m : Option (List Char), is_raspberry_pi m = is_raspberry_pi m)
    ∧ (∀ a b : List Char, upperStr a = upperStr b →
        is_raspberry_pi (some a) = is_raspberry_pi (some b))
    ∧ is_raspberry_pi none = false
    ∧ is_raspberry_pi (some "28:cd:c1:00:00:01".data) = true
    ∧ is_raspberry_pi (some "00:11:22:33:44:55".data) = false := by
  refine ⟨fun _ => rfl, ?_, rfl, by decide, by decide⟩
  intro a b h
  have hlen : a.length = b.length := by
    have h0 := congrArg List.length h
    simpa [upperStr] using h0
  by_cases ha : a = []
  · have hb : b = [] := by
      subst ha
      exact List.length_eq_zero.mp (by simpa using hlen.symm)
    subst ha
    subst hb
    rfl
  · have hb : b ≠ [] := by
      intro hb0
      subst hb0
      exact ha (List.length_eq_zero.mp (by simpa using hlen))
    simp only [is_raspberry_pi]
    rw [if_neg ha, if_neg hb, h]

theorem C6_classifier_pure_witness :
    is_raspberry_pi (some "28:CD:C1:00:00:01".data)
      = is_raspberry_pi (some "28:cd:c1:00:00:01".data) :=
  C6_classifier_pure.2.1 "28:CD:C1:00:00:01".data "28:cd:c1:00:00:01".data (by decide)

/-- C7: the probe never propagates an exception — a failing echo command
(non-zero exit, timeout, any other error) yields the unreachable result
`none`; a succeeding command yields the reachable result exactly when its
output contains no "unreachable"; and a reachable report always names the
probed address and implies such a successful output. -/
theorem C7_probe_no_raise :
    ∀ (ping : List Char → PingRes) (ip : List Char),
      (ping ip = PingRes.err → ping_test ping ip = none)
      ∧ (∀ out, ping ip = PingRes.ok out →
          ping_test ping ip =
            if containsSeq "unreachable".data out then none else some ip)
      ∧ (∀ r, ping_test ping ip = some r →
          r = ip ∧ ∃ out, ping ip = PingRes.ok out
            ∧ containsSeq "unreachable".data out = false) := by
  intro ping ip
  refine ⟨?_, ?_, ?_⟩
  · intro h
    unfold ping_test
    rw [h]
  · intro out h
    unfold ping_test
    rw [h]
  · intro r h
    refine ⟨ping_test_some_eq ping ip r h, ?_⟩
    unfold ping_test at h
    cases hp : ping ip with
    | ok out =>
      rw [hp] at h
      by_cases hc : containsSeq "unreachable".data out = true
      · exact absurd h (by simp [hc])
      · exact ⟨out, rfl, Bool.eq_false_iff.mpr hc⟩
    | err => rw [hp] at h; cases h

theorem C7_probe_no_raise_witness :
    ping_test (fun _ => PingRes.err) "10.0.0.1".data = none
    ∧ ping_test (fun _ => PingRes.ok "Destination host unreachable.".data) "10.0.0.1".data
        = if containsSeq "unreachable".data "Destination host unreachable.".data
          then none else some "10.0.0.1".data :=
  ⟨(C7_probe_no_raise (fun _ => PingRes.err) "10.0.0.1".data).1 rfl,
   (C7_probe_no_raise (fun _ => PingRes.ok "Destination host unreachable.".data)
      "10.0.0.1".data).2.1 "Destination host unreachable.".data rfl⟩

/-- C8: when no base argument is given and the local address cannot be
determined, the run terminates before any scan — no probe task is submitted,
nothing is resolved, nothing is reported.  (The mechanism is the uncaught
`TypeError` from `get_hostname(None)` on line 109; the explicit
`raise typer.Exit()` on line 116 is dead code.) -/
theorem C8_abort_before_scan :
    ∀ (env : Env) (workers : Nat), env.currentIp = none →
      main env [] workers = ⟨true, [], [], [], []⟩ := by
  intro env w h
  unfold main
  rw [if_pos rfl, h]

theorem C8_abort_before_scan_witness :
    main envNoIp [] 100 = ⟨true, [], [], [], []⟩ :=
  C8_abort_before_scan envNoIp 100 rfl

/-- C10: when the ARP lookup for a reachable address returns one or more
dynamic pairs, the resolution loop records exactly the first pair — address
and MAC taken from the first dynamic line of the ARP output — and discards
all further pairs. -/
theorem C10_first_dynamic :
    ∀ (arp : List Char → ArpRes) (ip : List Char) (rest : List (List Char))
      (p : List Char × List Char) (ps : List (List Char × List Char)),
      get_mac_address arp ip = p :: ps →
      collectDevices arp (ip :: rest) = p :: collectDevices arp rest := by
  intro arp ip rest p ps h
  unfold collectDevices
  rw [List.filterMap_cons_some (by rw [h]; rfl)]

theorem C10_first_dynamic_witness :
    collectDevices arpTwoEnv ["10.0.0.5".data]
      = [("10.0.0.5".data, "b8:27:eb:11:22:33".data)] :=
  C10_first_dynamic arpTwoEnv "10.0.0.5".data []
    ("10.0.0.5".data, "b8:27:eb:11:22:33".data)
    [("10.0.0.6".data, "dc:a6:32:00:00:01".data)] (by decide)

/-- C3 (amended): a reachable address whose ARP lookup returns no dynamic
pair is dropped from the device list — it contributes no entry at all,
instead of the "present with MAC absent" entry the claim describes. -/
theorem C3_resolution_drop_amended :
    ∀ (arp : List Char → ArpRes) (ip : List Char) (rest : List (List Char)),
      get_mac_address arp ip = [] →
      collectDevices arp (ip :: rest) = collectDevices arp rest := by
  intro arp ip rest h
  unfold collectDevices
  rw [List.filterMap_cons_none (by rw [h]; rfl)]

theorem C3_resolution_drop_witness :
    collectDevices envC3.arp ["10.0.0.5".data, "10.0.0.9".data]
      = collectDevices envC3.arp ["10.0.0.9".data] :=
  C3_resolution_drop_amended envC3.arp "10.0.0.5".data ["10.0.0.9".data] (by decide)

/-- C4 (amended): the value the coordinator uses as the current address — the
base argument itself when one is given, otherwise the machine's own
address — never appears in the post-probe reachable list, the list that
resolution and classification iterate over.  The machine's own address as
such is only excluded when no base argument is given (the claim as stated
fails, see the counterexample). -/
theorem C4_own_filter_amended :
    ∀ (env : Env) (base_ip : List Char) (workers : Nat) (cur : List Char),
      (if base_ip = [] then env.currentIp else some base_ip) = some cur →
      cur ∉ (main env base_ip workers).reachable_ips := by
  intro env base w cur h hmem
  rw [main_some env base w cur h] at hmem
  unfold mainReachable at hmem
  rcases List.mem_filter.mp hmem with ⟨-, hne⟩
  exact absurd rfl (of_decide_eq_true hne)

theorem C4_own_filter_witness :
    "10.0.0.7".data ∉ (main envC1 "10.0.0.7".data 50).reachable_ips :=
  C4_own_filter_amended envC1 "10.0.0.7".data 50 "10.0.0.7".data (by decide)

/-- C9 (amended): every address in the post-probe reachable list — the only
addresses the coordinator resolves — belongs to the generated scan range and
passed its reachability probe; and, provided every dynamic ARP pair returned
for a query carries the queried address itself, every address in the final
classified list belongs to the scan range.  Unconditionally the final list
copies addresses out of ARP output, which is why the claim as stated fails
(see the counterexample). -/
theorem C9_range_amended :
    ∀ (env : Env) (base_ip : List Char) (workers : Nat),
      (∀ ip, ip ∈ (main env base_ip workers).reachable_ips →
          ip ∈ (main env base_ip workers).ip_addresses ∧ ping_test env.ping ip = some ip)
      ∧ ((∀ ip p, p ∈ get_mac_address env.arp ip → p.1 = ip) →
          ∀ d, d ∈ (main env base_ip workers).rpi_devices →
            d ∈ (main env base_ip workers).ip_addresses) := by
  intro env base w
  cases hc : (if base = [] then env.currentIp else some base) with
  | none =>
    have hm : main env base w = ⟨true, [], [], [], []⟩ := by
      unfold main
      rw [hc]
    rw [hm]
    constructor
    · intro ip hip
      cases hip
    · intro _ d hd
      cases hd
  | some cur =>
    rw [main_some env base w cur hc]
    constructor
    · intro ip hip
      unfold mainReachable at hip
      rcases List.mem_filter.mp hip with ⟨hin, -⟩
      exact mem_scan_local_network 1 254 (dropLastGroup cur) w env.ping ip hin
    · intro hecho d hd
      rcases List.mem_map.mp hd with ⟨pr, hpr, rfl⟩
      rcases List.mem_filter.mp hpr with ⟨hprdev, -⟩
      unfold collectDevices at hprdev
      rcases List.mem_filterMap.mp hprdev with ⟨ip, hip, hhead⟩
      have hmem : pr ∈ get_mac_address env.arp ip :=
        List.mem_of_mem_head? (by rw [hhead]; rfl)
      rw [hecho ip pr hmem]
      unfold mainReachable at hip
      rcases List.mem_filter.mp hip with ⟨hin, -⟩
      exact (mem_scan_local_network 1 254 (dropLastGroup cur) w env.ping ip hin).1

theorem C9_range_witness :
    ("10.0.0.5".data ∈ (main envC1 "10.0.0.7".data 50).ip_addresses
      ∧ ping_test envC1.ping "10.0.0.5".data = some "10.0.0.5".data)
    ∧ "10.0.0.5".data ∈ (main envC1 "10.0.0.7".data 50).ip_addresses := by
  constructor
  · exact (C9_range_amended envC1 "10.0.0.7".data 50).1 "10.0.0.5".data (by decide)
  · refine (C9_range_amended envC1 "10.0.0.7".data 50).2 ?_ "10.0.0.5".data (by decide)
    intro ip p hp
    by_cases hip : ip = "10.0.0.5".data
    · subst hip
      have hg : get_mac_address envC1.arp "10.0.0.5".data
          = [("10.0.0.5".data, "b8:27:eb:11:22:33".data)] := by decide
      rw [hg] at hp
      rw [List.mem_singleton.mp hp]
    · have harp : envC1.arp ip = ArpRes.err := by
        simp only [envC1]
        rw [if_neg hip]
      have hg : get_mac_address envC1.arp ip = [] := by
        unfold get_mac_address
        rw [harp]
      rw [hg] at hp
      cases hp

/-- Helper for C5: a MAC without a hyphen is unchanged by the dash
normalization. -/
theorem replaceDash_eq_of_not_mem (mac : List Char) (h : '-' ∉ mac) :
    replaceDash mac = mac := by
  unfold replaceDash
  have hpt : ∀ c ∈ mac, (if c = '-' then ':' else c) = c := by
    intro c hc
    rw [if_neg]
    intro hd
    subst hd
    exact h hc
  rw [List.map_congr_left hpt]
  exact List.map_id' mac

/-- Helper for C5: every vendor OUI pattern in the table is 8 characters. -/
theorem mac_table_lengths : ∀ p ∈ RASPBERRY_PI_MAC_PREFIXES, p.length = 8 := by decide

/-- C5 (amended): the classifier uppercases the MAC and compares its first 8
characters with the colon-separated vendor OUIs; it performs NO separator
normalization, so it agrees with the spec's normalize-then-match description
exactly on hyphen-free (colon-separated) input, and the spec's description
equals the code applied to the dash-normalized MAC; a missing MAC classifies
as false. -/
theorem C5_classifier_amended :
    (∀ mac : List Char, '-' ∉ mac →
      is_raspberry_pi (some mac) = specIsRaspberryPi (some mac))
    ∧ (∀ mac : List Char,
        specIsRaspberryPi (some mac) = is_raspberry_pi (some (replaceDash mac)))
    ∧ is_raspberry_pi none = false := by
  have key : ∀ mac : List Char,
      specIsRaspberryPi (some mac) = is_raspberry_pi (some (replaceDash mac)) := by
    intro mac
    by_cases hm : replaceDash mac = []
    · have hm0 : mac = [] := by
        have hl := congrArg List.length hm
        simp only [replaceDash, List.length_map] at hl
        exact List.length_eq_zero.mp hl
      subst hm0
      decide
    · simp only [is_raspberry_pi, specIsRaspberryPi]
      rw [if_neg hm]
      refine (any_eq_of_forall fun p hp => ?_).symm
      have h8 := mac_table_lengths p hp
      have hlen : ((upperStr (replaceDash mac)).take 8).length ≤ p.length := by
        rw [h8]
        exact List.length_take_le 8 _
      exact isPrefixOf_eq_decide p _ hlen
  refine ⟨fun mac h => ?_, key, rfl⟩
  rw [key mac, replaceDash_eq_of_not_mem mac h]

/-- C5 (counterexample): on the hyphen-separated vendor MAC
"b8-27-eb-11-22-33" the code classifies false, while the claimed
normalize-to-colons-then-match behaviour classifies true — the code never
rewrites hyphens to colons (that happens only in the ARP parser). -/
theorem C5_counterexample :
    is_raspberry_pi (some "b8-27-eb-11-22-33".data) = false
    ∧ specIsRaspberryPi (some "b8-27-eb-11-22-33".data) = true := by decide

theorem C5_classifier_witness :
    is_raspberry_pi (some "b8:27:eb:00:00:01".data)
      = specIsRaspberryPi (some "b8:27:eb:00:00:01".data) :=
  C5_classifier_amended.1 "b8:27:eb:00:00:01".data (by decide)

set_option maxRecDepth 10000 in
set_option maxHeartbeats 4000000 in
/-- C1 (counterexample): invoked with base argument "10.0.0" and worker count
50 in the scenario's environment (only 10.0.0.5 answers, its ARP lookup
yields dynamic MAC b8:27:eb:11:22:33), the program strips the last dot-group
of the argument and scans 10.0.1 .. 10.0.254 — so 10.0.0.5 is never probed
and the final output is empty, not the claimed single device 10.0.0.5. -/
theorem C1_counterexample :
    (main envC1 "10.0.0".data 50).rpi_devices = []
    ∧ (main envC1 "10.0.0".data 50).ip_addresses = scanAddresses 1 254 "10.0".data := by
  constructor
  · decide
  · decide

set_option maxRecDepth 10000 in
set_option maxHeartbeats 4000000 in
/-- C1 (amended): the positional argument is treated as a full address in
the target network (its last dot-group is stripped to obtain the scan base,
and the argument itself is what the own-address filter removes).  Invoked
with "10.0.0.7" and worker count 50, when the only address that answers a
probe is 10.0.0.5 whose ARP lookup yields the dynamic MAC
b8:27:eb:11:22:33, the final output contains exactly one device, 10.0.0.5,
classified as a known-vendor (Raspberry Pi) match. -/
theorem C1_end_to_end_amended :
    (main envC1 "10.0.0.7".data 50).rpi_devices = ["10.0.0.5".data]
    ∧ (main envC1 "10.0.0.7".data 50).devices
        = [("10.0.0.5".data, "b8:27:eb:11:22:33".data)]
    ∧ is_raspberry_pi (some "b8:27:eb:11:22:33".data) = true := by
  refine ⟨by decide, by decide, by decide⟩

set_option maxRecDepth 10000 in
set_option maxHeartbeats 4000000 in
/-- C3 (counterexample): in a run where 10.0.0.5 is reachable but its
neighbor lookup returns no dynamic entry, the device list is empty — the
reachable address is dropped, not kept as "device present, vendor
unknown". -/
theorem C3_counterexample :
    (main envC3 "10.0.0.7".data 100).reachable_ips = ["10.0.0.5".data]
    ∧ (main envC3 "10.0.0.7".data 100).devices = []
    ∧ (main envC3 "10.0.0.7".data 100).rpi_devices = [] := by
  refine ⟨by decide, by decide, by decide⟩

set_option maxRecDepth 10000 in
set_option maxHeartbeats 4000000 in
/-- C4 (counterexample): on a machine whose own address is 10.0.0.9, invoked
with the base argument "10.0.0.7", the own address answers its probe and is
resolved to a vendor MAC — and appears in the final device list, because the
code filters out only the argument value, never the machine's own
address. -/
theorem C4_counterexample :
    envC4.currentIp = some "10.0.0.9".data
    ∧ (main envC4 "10.0.0.7".data 100).rpi_devices = ["10.0.0.9".data] := by
  refine ⟨by decide, by decide⟩

set_option maxRecDepth 10000 in
set_option maxHeartbeats 4000000 in
/-- C9 (counterexample): the final list records the address written in the
first dynamic ARP line, which line the code never checks against the queried
address — an ARP answer naming 99.99.99.99 for reachable 10.0.0.5 puts
99.99.99.99, an address outside the generated scan range, into the final
classified list. -/
theorem C9_counterexample :
    (main envC9 "10.0.0.7".data 100).rpi_devices = ["99.99.99.99".data]
    ∧ "99.99.99.99".data ∉ (main envC9 "10.0.0.7".data 100).ip_addresses := by
  refine ⟨by decide, by decide⟩

end FindMyPi
